import Mathlib

/-!
Shallow embedding of the lib_logger library (trace context, Logger Core,
adapters, env-driven configuration, stdlib-logging bridge) and proofs of
the specification claims about it.

Conventions of the embedding:
- Python strings are Lean `String`; character-level operations
  (slicing, upper/lower casing, strip) are modelled on `String.data`,
  restricted to ASCII, which covers every string the library manipulates.
- The `contextvars` trace-id slot of one logical context is a `String`,
  with the empty string as the contextvar default; the code itself treats
  a falsy (empty) value as "absent".
- Randomness (`uuid.uuid4().hex`) is passed in explicitly as the 32-char
  lowercase-hex digest the call would produce.
- Fallible operations (Python code that can raise) return `Option`.
-/

namespace LibLogger

/-- Characters accepted by the regex character class [0-9a-f]. -/
def isLowerHexDigit (c : Char) : Bool :=
  (('0' ≤ c) && (c ≤ '9')) || (('a' ≤ c) && (c ≤ 'f'))

/-- Validity of the digest `uuid.uuid4().hex` produces: 32 lowercase hex
characters. Used as the hypothesis describing the randomness source. -/
def uuidHexValid (u : String) : Prop :=
  u.data.length = 32 ∧ ∀ c ∈ u.data, isLowerHexDigit c = true

instance (u : String) : Decidable (uuidHexValid u) := by
  unfold uuidHexValid; infer_instance

/-- Embedding of the id generation `uuid.uuid4().hex[:8]` used by
`LoggerCore.get_trace_id` and `LoggerCore.reset_trace_id`: the first 8
characters of the digest. -/
def genTraceId (uuidHex : String) : String :=
  String.mk (uuidHex.data.take 8)

/-- Embedding of `LoggerCore.get_trace_id` acting on the current context's
slot. Returns the pair (returned trace id, new slot value). The code checks
`if not trace_id:`, i.e. regenerates whenever the stored value is falsy
(the empty string). -/
def getTraceId (uuidHex : String) (slot : String) : String × String :=
  if slot = "" then
    let t := genTraceId uuidHex
    (t, t)
  else
    (slot, slot)

/-- Embedding of `LoggerCore.set_trace_id`: installs the given id in the
context slot, with no validation or transformation. Returns the new slot. -/
def setTraceId (traceId : String) (_slot : String) : String :=
  traceId

/-- Embedding of `LoggerCore.reset_trace_id`: installs a freshly generated
id in the context slot. Returns the new slot. -/
def resetTraceId (uuidHex : String) (_slot : String) : String :=
  genTraceId uuidHex

/-- ASCII model of Python str.upper, as used by BaseAdapter.should_log:
every character is uppercased. -/
def pyUpper (s : String) : String :=
  String.mk (s.data.map Char.toUpper)

/-- ASCII model of Python str.lower, as used by configure_logging_from_env. -/
def pyLower (s : String) : String :=
  String.mk (s.data.map Char.toLower)

/-- ASCII model of Python str.strip with no argument: drop leading and
trailing whitespace. -/
def pyStrip (s : String) : String :=
  String.mk
    (((s.data.dropWhile Char.isWhitespace).reverse.dropWhile
      Char.isWhitespace).reverse)

/-- Truthiness of an optional string, as Python evaluates
`if project_id:` on a value that is None or a str. -/
def pyTruthy : Option String → Bool
  | none => false
  | some s => s ≠ ""

/-- Level list of BaseAdapter.should_log, in severity order. -/
def LEVELS : List String :=
  ["DEBUG", "INFO", "WARNING", "ERROR", "CRITICAL"]

/-- Embedding of `levels.index(x.upper())`: position of the uppercased
level name in LEVELS, or none where Python list.index raises ValueError. -/
def levelIndex (level : String) : Option Nat :=
  LEVELS.findIdx? (fun l => l == pyUpper level)

/-- Embedding of BaseAdapter.should_log: compares the record level's index
against the adapter level's index. none models the ValueError raised when
either name is not one of the five known levels. -/
def shouldLog (selfLevel level : String) : Option Bool := do
  let minLevelIdx ← levelIndex selfLevel
  let currentLevelIdx ← levelIndex level
  pure (decide (currentLevelIdx ≥ minLevelIdx))

/-- Adapter variants shipped by the library. -/
inductive AdapterKind where
  | console
  | json
  | gcp
deriving DecidableEq, Repr

/-- Embedding of an adapter instance: its kind plus the constructor
arguments the library uses (minimum level, console colorize flag, GCP
project id). -/
structure Adapter where
  kind : AdapterKind
  level : String
  colorize : Bool := true
  projectId : Option String := none
deriving DecidableEq, Repr

/-- Destination of a loguru sink, as each adapter's get_sink_config
chooses it: stderr stream, stdout stream, or the GCP adapter's callable
sink (which closes over the adapter's project id). -/
inductive SinkDest where
  | stderr
  | stdout
  | callableGCP (projectId : Option String)
deriving DecidableEq, Repr

/-- Embedding of the dict returned by get_sink_config: the loguru add()
keyword arguments each adapter supplies (absent keys are none). -/
structure SinkConfig where
  sinkDest : SinkDest
  fmt : Option String := none
  level : String
  colorize : Option Bool := none
  serializeJson : Option Bool := none
deriving DecidableEq, Repr

/-- Loguru format string of ConsoleAdapter.get_sink_config (braces of the
placeholder syntax written as escapes). -/
def consoleFormat : String :=
  "<green>\x7btime:YYYY-MM-DD HH:mm:ss\x7d</green> | " ++
  "<level>\x7blevel: <8\x7d</level> | " ++
  "<dim>\x7bextra[trace_id]\x7d</dim> | " ++
  "<cyan>\x7bextra[name]\x7d</cyan> | " ++
  "<dim>\x7bfile\x7d:\x7bline\x7d</dim> | " ++
  "<level>\x7bmessage\x7d</level>"

/-- Embedding of get_sink_config for each adapter variant. -/
def getSinkConfig (a : Adapter) : SinkConfig :=
  match a.kind with
  | .console =>
      { sinkDest := .stderr
        fmt := some consoleFormat
        level := a.level
        colorize := some a.colorize }
  | .json =>
      { sinkDest := .stdout
        fmt := some "\x7bmessage\x7d"
        level := a.level
        colorize := some false
        serializeJson := some true }
  | .gcp =>
      { sinkDest := .callableGCP a.projectId
        level := a.level
        colorize := some false }

/-- Process-wide state of LoggerCore plus the loguru handler list the
adapters install sinks into. -/
structure CoreState where
  configured : Bool
  adapters : List Adapter
  sinks : List SinkConfig
deriving DecidableEq, Repr

/-- Adapter produced by `ConsoleAdapter()` with default arguments, the
default configure substitutes when no adapter list is given. -/
def consoleAdapterDefault : Adapter :=
  { kind := .console, level := "DEBUG", colorize := true }

/-- Embedding of LoggerCore.configure: a no-op while configured; otherwise
substitutes the default Console adapter for an absent (None) list, removes
the pre-existing loguru sinks and adds one sink per adapter, then marks the
core configured. The configure call cannot raise. -/
def configure (adapters : Option (List Adapter)) (s : CoreState) : CoreState :=
  if s.configured then
    s
  else
    let installed := adapters.getD [consoleAdapterDefault]
    { configured := true
      adapters := installed
      sinks := installed.map getSinkConfig }

/-- Embedding of LoggerCore.is_configured. -/
def isConfigured (s : CoreState) : Bool :=
  s.configured

/-- Embedding of LoggerCore.get_adapters (the .copy() of a Lean list is
the list itself). -/
def getAdapters (s : CoreState) : List Adapter :=
  s.adapters

/-- Embedding of reset_logging in config.py: removes all loguru sinks,
clears the configured flag and the adapter list. -/
def resetLogging (_s : CoreState) : CoreState :=
  { configured := false, adapters := [], sinks := [] }

/-- Environment mapping, modelled as an association list; lookup is
os.environ.get. -/
def envGet (env : List (String × String)) (k : String) : Option String :=
  env.lookup k

/-- Names checked for the GCP project id, in order (PROJECT_ID_VARS in
config.py). -/
def PROJECT_ID_VARS : List String :=
  ["GOOGLE_CLOUD_PROJECT", "GCP_PROJECT_ID"]

/-- Embedding of the project-id loop of configure_logging_from_env:
`project_id = os.environ.get(var)` for each name in turn, stopping at the
first truthy value; the last looked-up value (possibly falsy) remains
otherwise. -/
def envProjectId (env : List (String × String)) : Option String :=
  PROJECT_ID_VARS.foldl
    (fun acc v => if pyTruthy acc then acc else envGet env v) none

/-- Embedding of the adapter selection of configure_logging_from_env:
LOG_ENV stripped and lowercased selects the GCP adapter when it equals
"google", else the Console adapter; LOG_LEVEL (default "INFO") gives the
minimum level; the project id comes from the PROJECT_ID_VARS loop. -/
def envAdapters (env : List (String × String)) : List Adapter :=
  let logEnv := pyLower (pyStrip ((envGet env "LOG_ENV").getD ""))
  let level := (envGet env "LOG_LEVEL").getD "INFO"
  let projectId := envProjectId env
  if logEnv == "google" then
    [{ kind := .gcp, level := level, projectId := projectId }]
  else
    [{ kind := .console, level := level }]

/-- Embedding of configure_logging_from_env composed with the
LoggerCore.configure call that configure_logging performs (the stdlib
interception part is outside the core state). -/
def configureLoggingFromEnv (env : List (String × String)) (s : CoreState) :
    CoreState :=
  configure (some (envAdapters env)) s

/-- Level argument InterceptHandler.emit passes to loguru's log call:
either a level name or, as fallback, the stdlib record's numeric level. -/
inductive EmitLevel where
  | byName (name : String)
  | byNo (levelno : Int)
deriving DecidableEq, Repr

/-- Embedding of the level resolution in InterceptHandler.emit. The
registry argument models loguru's `logger.level`: some name when the
severity name is registered, none where the Python call raises ValueError.
The try/except falls back to the record's numeric level. -/
def interceptEmitLevel (registry : String → Option String)
    (levelname : String) (levelno : Int) : EmitLevel :=
  match registry levelname with
  | some nm => .byName nm
  | none => .byNo levelno

/-- Registry holding loguru's built-in severity names, used to witness the
bridge claims on concrete inputs. -/
def loguruDefaultRegistry (name : String) : Option String :=
  if ["TRACE", "DEBUG", "INFO", "SUCCESS", "WARNING", "ERROR",
      "CRITICAL"].contains name then
    some name
  else
    none

/-- JSON-like scalar values callers can place in a record's extra mapping. -/
inductive JVal where
  | jstr (s : String)
  | jnum (n : Int)
  | jbool (b : Bool)
  | jnull
deriving DecidableEq, Repr

/-- Python truthiness of an extra value, as `or` and `if` evaluate it. -/
def jvalTruthy : JVal → Bool
  | .jstr s => s ≠ ""
  | .jnum n => n ≠ 0
  | .jbool b => b
  | .jnull => false

/-- Python str() of an extra scalar value. -/
def jvalPyStr : JVal → String
  | .jstr s => s
  | .jnum n => toString n
  | .jbool true => "True"
  | .jbool false => "False"
  | .jnull => "None"

/-- Values of the formatted GCP log entry: a scalar, or the nested
sourceLocation object. -/
inductive OVal where
  | prim (v : JVal)
  | srcLoc (file : String) (line : Int) (function : String)
deriving DecidableEq, Repr

/-- Loguru record as the GCP formatter consumes it: level name, message,
time (already rendered to its ISO form in UTC), source location, and the
extra mapping holding trace_id, name and user extras. -/
structure LogRecord where
  levelName : String
  message : String
  timestamp : String
  fileName : String
  line : Int
  function : String
  extra : List (String × JVal)
deriving DecidableEq, Repr

/-- Loguru-level to GCP-severity map of GCPAdapter._gcp_formatter. -/
def gcpLevelMap : List (String × String) :=
  [("TRACE", "DEBUG"), ("DEBUG", "DEBUG"), ("INFO", "INFO"),
   ("SUCCESS", "INFO"), ("WARNING", "WARNING"), ("ERROR", "ERROR"),
   ("CRITICAL", "CRITICAL")]

/-- Severity written to the entry: the mapped level, default "INFO". -/
def gcpSeverity (levelName : String) : String :=
  (gcpLevelMap.lookup levelName).getD "INFO"

/-- Embedding of GCPAdapter._is_gcp_trace_id: full match of the regex
[0-9a-f]\x7b32\x7d, i.e. exactly 32 lowercase hex characters. -/
def isGcpTraceId (value : String) : Bool :=
  value.data.length == 32 && value.data.all isLowerHexDigit

/-- Assignment into the ordered entry dict: overwrite in place when the
key exists (Python dicts keep the original position), else append. -/
def dictSet (m : List (String × OVal)) (k : String) (v : OVal) :
    List (String × OVal) :=
  if m.any (fun p => p.1 == k) then
    m.map (fun p => if p.1 == k then (k, v) else p)
  else
    m ++ [(k, v)]

/-- Embedding of `str(record["extra"].get("trace_id", "") or "")`. -/
def gcpTraceIdOf (r : LogRecord) : String :=
  let v := (r.extra.lookup "trace_id").getD (.jstr "")
  jvalPyStr (if jvalTruthy v then v else .jstr "")

/-- Base entry dict of _gcp_formatter: severity, message, timestamp (with
the +00:00 offset rewritten to Z) and the nested source location. -/
def gcpBaseEntry (r : LogRecord) : List (String × OVal) :=
  [("severity", .prim (.jstr (gcpSeverity r.levelName))),
   ("message", .prim (.jstr r.message)),
   ("timestamp", .prim (.jstr (r.timestamp.replace "+00:00" "Z"))),
   ("logging.googleapis.com/sourceLocation",
     .srcLoc r.fileName r.line r.function)]

/-- Trace block of _gcp_formatter: when the extracted trace id is truthy,
always add the internal-correlation key trace_id, and add the official
trace key only when a project id is configured (truthy) and the id passes
the 32-hex check. -/
def gcpEntryTrace (projectId : Option String) (r : LogRecord) :
    List (String × OVal) :=
  let traceId := gcpTraceIdOf r
  if traceId ≠ "" then
    let e := dictSet (gcpBaseEntry r) "trace_id" (.prim (.jstr traceId))
    if pyTruthy projectId && isGcpTraceId traceId then
      dictSet e "logging.googleapis.com/trace"
        (.prim (.jstr
          ("projects/" ++ projectId.getD "" ++ "/traces/" ++ traceId)))
    else e
  else gcpBaseEntry r

/-- Logger-name block of _gcp_formatter: add the logger key when the extra
mapping holds a truthy name. -/
def gcpEntryLogger (projectId : Option String) (r : LogRecord) :
    List (String × OVal) :=
  match r.extra.lookup "name" with
  | some v =>
      if jvalTruthy v then
        dictSet (gcpEntryTrace projectId r) "logger"
          (.prim (.jstr (jvalPyStr v)))
      else gcpEntryTrace projectId r
  | none => gcpEntryTrace projectId r

/-- One step of the final extras loop of _gcp_formatter: copy every extra
except trace_id and name into the entry. -/
def gcpExtraStep (e : List (String × OVal)) (p : String × JVal) :
    List (String × OVal) :=
  if p.1 == "trace_id" || p.1 == "name" then e
  else dictSet e p.1 (.prim p.2)

/-- Embedding of GCPAdapter._gcp_formatter: the entry dict that
json.dumps then serializes verbatim, one JSON object per line. -/
def gcpFormatter (projectId : Option String) (r : LogRecord) :
    List (String × OVal) :=
  r.extra.foldl gcpExtraStep (gcpEntryLogger projectId r)

/-- Record carrying an explicitly empty trace id. -/
def recordEmptyTid : LogRecord :=
  { levelName := "INFO", message := "boot", timestamp := "2026-02-05T21:55:32",
    fileName := "main.py", line := 42, function := "handler",
    extra := [("trace_id", .jstr "")] }

/-- Record whose extras also carry the official GCP trace key, which the
final extras loop of the formatter copies into the entry. -/
def recordSmuggledTrace : LogRecord :=
  { levelName := "INFO", message := "boot", timestamp := "2026-02-05T21:55:32",
    fileName := "main.py", line := 42, function := "handler",
    extra := [("trace_id", .jstr "05556afc"),
              ("logging.googleapis.com/trace", .jstr "not-a-resource-path")] }

/-- Record with the 8-character trace id of the spec's example. -/
def record8Tid : LogRecord :=
  { levelName := "INFO", message := "boot", timestamp := "2026-02-05T21:55:32",
    fileName := "main.py", line := 42, function := "handler",
    extra := [("trace_id", .jstr "05556afc")] }

/-- Record with a 32-lowercase-hex trace id and a bound logger name. -/
def record32Tid : LogRecord :=
  { levelName := "INFO", message := "boot", timestamp := "2026-02-05T21:55:32",
    fileName := "main.py", line := 42, function := "handler",
    extra := [("trace_id", .jstr "0123456789abcdef0123456789abcdef"),
              ("name", .jstr "api")] }

/-- C1 (amended): for every non-empty id, set_trace_id then get_trace_id
returns exactly that id, unmodified, and leaves it installed, regardless of
its format and of the randomness source. -/
theorem set_then_get_exact (uuidHex id slot : String) (h : id ≠ "") :
    getTraceId uuidHex (setTraceId id slot) = (id, id) := by
  simp [getTraceId, setTraceId, h]

/-- C1 witness: a concrete non-hex id round-trips through set/get. -/
theorem set_then_get_exact_witness :
    getTraceId "00000000000000000000000000000000"
      (setTraceId "X-Trace/41+!" "old") = ("X-Trace/41+!", "X-Trace/41+!") :=
  set_then_get_exact "00000000000000000000000000000000" "X-Trace/41+!" "old"
    (by decide)

/-- C1 counterexample: for the empty id the claim fails. After
set_trace_id("") the slot is falsy, so get_trace_id regenerates (here with
digest all zeroes) and returns "00000000", not the installed "". -/
theorem set_then_get_empty_id_regenerates :
    setTraceId "" "old" = "" ∧
    (getTraceId "00000000000000000000000000000000" (setTraceId "" "old")).1
      = "00000000" ∧
    (getTraceId "00000000000000000000000000000000" (setTraceId "" "old")).1
      ≠ "" := by
  refine ⟨rfl, rfl, ?_⟩
  decide

/-- C4: on an absent (empty) slot, get_trace_id generates an 8-character
lowercase-hex id, installs it and returns it, so an immediately repeated
call returns the identical value; reset_trace_id likewise installs a fresh
8-character lowercase-hex id. Hypotheses describe the uuid4 digests. -/
theorem get_trace_id_fresh (u v w s : String)
    (hu : uuidHexValid u) (hw : uuidHexValid w) :
    ((getTraceId u "").1.data.length = 8
      ∧ (∀ c ∈ (getTraceId u "").1.data, isLowerHexDigit c = true)
      ∧ (getTraceId u "").2 = (getTraceId u "").1
      ∧ getTraceId v (getTraceId u "").2
          = ((getTraceId u "").1, (getTraceId u "").1))
    ∧ ((resetTraceId w s).data.length = 8
      ∧ ∀ c ∈ (resetTraceId w s).data, isLowerHexDigit c = true) := by
  obtain ⟨hulen, huhex⟩ := hu
  obtain ⟨hwlen, hwhex⟩ := hw
  have hfst : (getTraceId u "").1 = String.mk (u.data.take 8) := rfl
  have hlen : (String.mk (u.data.take 8)).data.length = 8 := by
    simp [List.length_take, hulen]
  refine ⟨⟨?_, ?_, rfl, ?_⟩, ?_, ?_⟩
  · rw [hfst]; exact hlen
  · rw [hfst]
    intro c hc
    exact huhex c (List.take_subset 8 u.data hc)
  · have hne : (getTraceId u "").1 ≠ "" := by
      rw [hfst]
      intro hcontra
      have : (String.mk (u.data.take 8)).data.length = 0 := by
        rw [hcontra]; rfl
      rw [hlen] at this
      exact (by decide : (8 : Nat) ≠ 0) this
    have h2 : (getTraceId u "").2 = (getTraceId u "").1 := rfl
    have hstable : ∀ x : String, x ≠ "" → getTraceId v x = (x, x) := by
      intro x hx
      simp [getTraceId, hx]
    rw [h2, hstable _ hne]
  · simp [resetTraceId, genTraceId, List.length_take, hwlen]
  · intro c hc
    exact hwhex c (List.take_subset 8 w.data hc)

/-- C4 witness: a concrete digest yields a concrete 8-hex id with all the
stated properties. -/
theorem get_trace_id_fresh_witness :
    ((getTraceId "0123456789abcdef0123456789abcdef" "").1.data.length = 8
      ∧ (∀ c ∈ (getTraceId "0123456789abcdef0123456789abcdef" "").1.data,
          isLowerHexDigit c = true)
      ∧ (getTraceId "0123456789abcdef0123456789abcdef" "").2
          = (getTraceId "0123456789abcdef0123456789abcdef" "").1
      ∧ getTraceId "ffffffffffffffffffffffffffffffff"
            (getTraceId "0123456789abcdef0123456789abcdef" "").2
          = ((getTraceId "0123456789abcdef0123456789abcdef" "").1,
             (getTraceId "0123456789abcdef0123456789abcdef" "").1))
    ∧ ((resetTraceId "abcdefabcdefabcdefabcdefabcdefab" "stale").data.length = 8
      ∧ ∀ c ∈ (resetTraceId "abcdefabcdefabcdefabcdefabcdefab" "stale").data,
          isLowerHexDigit c = true) :=
  get_trace_id_fresh "0123456789abcdef0123456789abcdef"
    "ffffffffffffffffffffffffffffffff" "abcdefabcdefabcdefabcdefabcdefab"
    "stale" (by decide) (by decide)

/-- Helper: a findIdx? search for an element equal to x succeeds exactly
when the list contains x. -/
theorem findIdx_isSome_eq_contains (x : String) (L : List String) :
    (L.findIdx? (fun l => l == x)).isSome = L.contains x := by
  induction L with
  | nil => rfl
  | cons a t ih =>
    simp only [List.findIdx?_cons, List.contains_cons]
    by_cases hax : a = x
    · subst hax; simp
    · have h1 : (a == x) = false := by simp [hax]
      have h2 : (x == a) = false := by simp [Ne.symm hax]
      simp [h1, h2, ih]

/-- Helper: explicit form of the two-variable project-id lookup loop. -/
theorem envProjectId_eq (env : List (String × String)) :
    envProjectId env
      = if pyTruthy (envGet env "GOOGLE_CLOUD_PROJECT")
          then envGet env "GOOGLE_CLOUD_PROJECT"
          else envGet env "GCP_PROJECT_ID" := by
  simp [envProjectId, PROJECT_ID_VARS, pyTruthy]

/-- C3: while LoggerCore is already configured, a further configure call
with any adapter list is a silent no-op: the state is unchanged, so the
adapter set and the sink list stay those of the first configure call, and
nothing is raised (the embedding is a total function). -/
theorem configure_noop_when_configured (s : CoreState)
    (a : Option (List Adapter)) (h : s.configured = true) :
    configure a s = s ∧ (configure a s).adapters = s.adapters
      ∧ (configure a s).sinks = s.sinks := by
  simp [configure, h]

/-- C3 witness: a second configure call after a first one, on a concretely
unconfigured initial state, changes nothing. -/
theorem configure_noop_when_configured_witness :
    configure (some [])
        (configure none { configured := false, adapters := [], sinks := [] })
      = configure none { configured := false, adapters := [], sinks := [] }
    ∧ (configure (some [])
        (configure none
          { configured := false, adapters := [], sinks := [] })).adapters
      = (configure none
          { configured := false, adapters := [], sinks := [] }).adapters
    ∧ (configure (some [])
        (configure none
          { configured := false, adapters := [], sinks := [] })).sinks
      = (configure none
          { configured := false, adapters := [], sinks := [] }).sinks :=
  configure_noop_when_configured
    (configure none { configured := false, adapters := [], sinks := [] })
    (some []) rfl

/-- C5: on the five known level names, should_log answers true exactly when
the record level's severity index is at least the adapter level's index in
the fixed ordering DEBUG < INFO < WARNING < ERROR < CRITICAL; the result
depends only on this one adapter's configured minimum. -/
theorem should_log_iff_severity (minLevel level : String) (mi ci : Nat)
    (hm : levelIndex minLevel = some mi) (hc : levelIndex level = some ci) :
    shouldLog minLevel level = some (decide (ci ≥ mi))
      ∧ (shouldLog minLevel level = some true ↔ ci ≥ mi) := by
  constructor
  · simp [shouldLog, hm, hc]
  · simp [shouldLog, hm, hc]

/-- C5 witness: a WARNING record passes an INFO-threshold adapter, with
the severity indices 1 and 2. -/
theorem should_log_iff_severity_witness :
    shouldLog "INFO" "warning" = some (decide ((2 : Nat) ≥ 1))
      ∧ (shouldLog "INFO" "warning" = some true ↔ (2 : Nat) ≥ 1) :=
  should_log_iff_severity "INFO" "warning" 1 2 (by decide) (by decide)

/-- C6: configure_logging_from_env selects the GCP adapter exactly when
LOG_ENV stripped and lowercased equals "google" and the Console adapter
otherwise, takes the minimum level from LOG_LEVEL with default "INFO", and
passes the cloud adapter the first truthy value among GOOGLE_CLOUD_PROJECT
and GCP_PROJECT_ID. -/
theorem env_adapter_selection (env : List (String × String)) :
    (pyLower (pyStrip ((envGet env "LOG_ENV").getD "")) = "google" →
      envAdapters env
        = [{ kind := .gcp, level := (envGet env "LOG_LEVEL").getD "INFO",
             colorize := true, projectId := envProjectId env }])
    ∧ (pyLower (pyStrip ((envGet env "LOG_ENV").getD "")) ≠ "google" →
      envAdapters env
        = [{ kind := .console, level := (envGet env "LOG_LEVEL").getD "INFO",
             colorize := true, projectId := none }])
    ∧ (∀ p, envGet env "GOOGLE_CLOUD_PROJECT" = some p → p ≠ "" →
        envProjectId env = some p)
    ∧ (∀ p, pyTruthy (envGet env "GOOGLE_CLOUD_PROJECT") = false →
        envGet env "GCP_PROJECT_ID" = some p → envProjectId env = some p) := by
  refine ⟨?_, ?_, ?_, ?_⟩
  · intro h
    simp [envAdapters, h]
  · intro h
    simp [envAdapters, h]
  · intro p hp hne
    rw [envProjectId_eq, hp]
    simp [pyTruthy, hne]
  · intro p hfalse hp
    rw [envProjectId_eq, hfalse]
    simp [hp]

/-- C6 witness: LOG_ENV " Google " (stripped, lowercased) selects the GCP
adapter at LOG_LEVEL DEBUG with the project id taken from GCP_PROJECT_ID
since GOOGLE_CLOUD_PROJECT is unset; without LOG_ENV the Console adapter
is selected at the LOG_LEVEL value. -/
theorem env_adapter_selection_witness :
    envAdapters
        [("LOG_ENV", " Google "), ("LOG_LEVEL", "DEBUG"),
         ("GCP_PROJECT_ID", "my-project")]
      = [{ kind := .gcp, level := "DEBUG", colorize := true,
           projectId := some "my-project" }]
    ∧ envAdapters [("LOG_LEVEL", "WARNING")]
      = [{ kind := .console, level := "WARNING", colorize := true,
           projectId := none }]
    ∧ envProjectId
        [("LOG_ENV", " Google "), ("LOG_LEVEL", "DEBUG"),
         ("GCP_PROJECT_ID", "my-project")]
      = some "my-project" :=
  ⟨(env_adapter_selection
      [("LOG_ENV", " Google "), ("LOG_LEVEL", "DEBUG"),
       ("GCP_PROJECT_ID", "my-project")]).1 (by decide),
   (env_adapter_selection [("LOG_LEVEL", "WARNING")]).2.1 (by decide),
   (env_adapter_selection
      [("LOG_ENV", " Google "), ("LOG_LEVEL", "DEBUG"),
       ("GCP_PROJECT_ID", "my-project")]).2.2.2 "my-project" (by decide)
     (by decide)⟩

/-- C7: after reset_logging from any state, is_configured reports false
and the adapter list (and the loguru sink list) is empty. -/
theorem reset_logging_unconfigures (s : CoreState) :
    isConfigured (resetLogging s) = false
      ∧ getAdapters (resetLogging s) = []
      ∧ (resetLogging s).sinks = [] :=
  ⟨rfl, rfl, rfl⟩

/-- C8: the bridge re-emits at the registered internal level when the
severity-name lookup succeeds in the registry, and, instead of failing the
emit, falls back to the record's raw numeric level when the lookup raises. -/
theorem intercept_level_resolution (registry : String → Option String)
    (levelname : String) (levelno : Int) :
    (∀ nm, registry levelname = some nm →
      interceptEmitLevel registry levelname levelno = .byName nm)
    ∧ (registry levelname = none →
      interceptEmitLevel registry levelname levelno = .byNo levelno) := by
  constructor
  · intro nm h
    simp [interceptEmitLevel, h]
  · intro h
    simp [interceptEmitLevel, h]

/-- C8 witness: against loguru's built-in level registry, "INFO" is
re-emitted by name and the unknown name "MY_CUSTOM" falls back to the
record's numeric level 35. -/
theorem intercept_level_resolution_witness :
    interceptEmitLevel loguruDefaultRegistry "INFO" 20
      = EmitLevel.byName "INFO"
    ∧ interceptEmitLevel loguruDefaultRegistry "MY_CUSTOM" 35
      = EmitLevel.byNo 35 :=
  ⟨(intercept_level_resolution loguruDefaultRegistry "INFO" 20).1 "INFO"
      (by decide),
   (intercept_level_resolution loguruDefaultRegistry "MY_CUSTOM" 35).2
      (by decide)⟩

/-- C9: on an unconfigured core, configure with an explicitly empty list
yields a configured state with zero adapters and zero sinks, while the
Console default is substituted only for an absent (None) argument. -/
theorem configure_empty_adapter_list (s : CoreState)
    (h : s.configured = false) :
    configure (some []) s = { configured := true, adapters := [], sinks := [] }
    ∧ configure none s
      = { configured := true, adapters := [consoleAdapterDefault],
          sinks := [getSinkConfig consoleAdapterDefault] } := by
  simp [configure, h]

/-- C9 witness: both configure variants evaluated on the concrete initial
state. -/
theorem configure_empty_adapter_list_witness :
    configure (some []) { configured := false, adapters := [], sinks := [] }
      = { configured := true, adapters := [], sinks := [] }
    ∧ configure none { configured := false, adapters := [], sinks := [] }
      = { configured := true, adapters := [consoleAdapterDefault],
          sinks := [getSinkConfig consoleAdapterDefault] } :=
  configure_empty_adapter_list
    { configured := false, adapters := [], sinks := [] } rfl

/-- C10: should_log returns a boolean exactly when both the adapter's
configured level and the queried level are, case-insensitively, among the
five known names; for any other name (such as TRACE or SUCCESS) the index
lookup has no result and the call raises instead of returning false. -/
theorem should_log_defined_iff (selfLevel level : String) :
    (∃ b, shouldLog selfLevel level = some b)
      ↔ (LEVELS.contains (pyUpper selfLevel) = true
          ∧ LEVELS.contains (pyUpper level) = true) := by
  have h1 : (levelIndex selfLevel).isSome
      = LEVELS.contains (pyUpper selfLevel) :=
    findIdx_isSome_eq_contains _ _
  have h2 : (levelIndex level).isSome = LEVELS.contains (pyUpper level) :=
    findIdx_isSome_eq_contains _ _
  rw [← h1, ← h2]
  rcases hs : levelIndex selfLevel with _ | mi <;>
    rcases hc : levelIndex level with _ | ci <;>
      simp [shouldLog, hs, hc]

/-- Helper: a cons cell whose key differs from the query is skipped. -/
theorem lookup_cons_ne_key (a : String) (b : OVal)
    (l : List (String × OVal)) (q : String) (h : (q == a) = false) :
    ((a, b) :: l).lookup q = l.lookup q := by
  rw [List.lookup_cons, h]

/-- Helper: overwriting every entry holding key k leaves other lookups
unchanged. -/
theorem lookup_map_overwrite_ne (t : List (String × OVal)) (k q : String)
    (v : OVal) (h : q ≠ k) :
    (t.map (fun p => if p.1 == k then (k, v) else p)).lookup q
      = t.lookup q := by
  induction t with
  | nil => rfl
  | cons a t ih =>
    obtain ⟨a1, a2⟩ := a
    simp only [List.map_cons]
    by_cases ha : a1 = k
    · rw [if_pos (by simp [ha]), lookup_cons_ne_key k v _ q (by simp [h]),
        lookup_cons_ne_key a1 a2 _ q (by simp [ha, h])]
      exact ih
    · rw [if_neg (by simp [ha])]
      by_cases hqa : q = a1
      · subst hqa
        rw [List.lookup_cons_self, List.lookup_cons_self]
      · rw [lookup_cons_ne_key a1 a2 _ q (by simp [hqa]),
          lookup_cons_ne_key a1 a2 _ q (by simp [hqa])]
        exact ih

/-- Helper: when some entry holds key k, overwriting makes k map to the
new value. -/
theorem lookup_map_overwrite_self (t : List (String × OVal)) (k : String)
    (v : OVal) (h : t.any (fun p => p.1 == k) = true) :
    (t.map (fun p => if p.1 == k then (k, v) else p)).lookup k
      = some v := by
  induction t with
  | nil => simp at h
  | cons a t ih =>
    obtain ⟨a1, a2⟩ := a
    simp only [List.map_cons]
    by_cases ha : a1 = k
    · rw [if_pos (by simp [ha])]
      exact List.lookup_cons_self
    · rw [if_neg (by simp [ha]),
        lookup_cons_ne_key a1 a2 _ k (by simp [Ne.symm ha])]
      apply ih
      have haf : (a1 == k) = false := by simp [ha]
      simpa [List.any_cons, haf] using h

/-- Helper: assignment makes the assigned key map to the assigned value. -/
theorem lookup_dictSet_self (m : List (String × OVal)) (k : String)
    (v : OVal) :
    (dictSet m k v).lookup k = some v := by
  unfold dictSet
  by_cases hany : m.any (fun p => p.1 == k) = true
  · rw [if_pos hany]
    exact lookup_map_overwrite_self m k v hany
  · rw [if_neg hany]
    have hnone : m.lookup k = none := by
      rw [List.lookup_eq_none_iff]
      intro p hp
      have hb : (p.1 == k) = false := by
        cases hb : p.1 == k with
        | true => exact absurd (List.any_eq_true.mpr ⟨p, hp, hb⟩) hany
        | false => rfl
      simp only [beq_eq_false_iff_ne] at hb
      simp [bne_iff_ne, Ne.symm hb]
    rw [List.lookup_append, hnone, List.lookup_cons_self]
    rfl

/-- Helper: assignment leaves every other key's lookup unchanged. -/
theorem lookup_dictSet_ne (m : List (String × OVal)) (k q : String)
    (v : OVal) (h : q ≠ k) :
    (dictSet m k v).lookup q = m.lookup q := by
  unfold dictSet
  by_cases hany : m.any (fun p => p.1 == k) = true
  · rw [if_pos hany]
    exact lookup_map_overwrite_ne m k q v h
  · rw [if_neg hany, List.lookup_append,
      lookup_cons_ne_key k v [] q (by simp [h]), List.lookup_nil]
    cases m.lookup q <;> rfl

/-- Helper: the extras loop never changes the lookup of a key that every
extra either skips (trace_id, name) or differs from. -/
theorem lookup_extras_foldl (extras : List (String × JVal))
    (e : List (String × OVal)) (q : String)
    (h : ∀ p ∈ extras, p.1 = q →
      (p.1 == "trace_id" || p.1 == "name") = true) :
    (extras.foldl gcpExtraStep e).lookup q = e.lookup q := by
  induction extras generalizing e with
  | nil => rfl
  | cons p t ih =>
    rw [List.foldl_cons,
      ih _ (fun p2 hp2 => h p2 (List.mem_cons_of_mem p hp2))]
    unfold gcpExtraStep
    by_cases hskip : (p.1 == "trace_id" || p.1 == "name") = true
    · rw [if_pos hskip]
    · rw [if_neg hskip]
      apply lookup_dictSet_ne
      intro hq
      exact hskip (h p (List.mem_cons_self p t) hq.symm)

/-- Helper: the logger-name block does not touch keys other than logger. -/
theorem lookup_entryLogger_ne (projectId : Option String) (r : LogRecord)
    (q : String) (h : q ≠ "logger") :
    (gcpEntryLogger projectId r).lookup q
      = (gcpEntryTrace projectId r).lookup q := by
  unfold gcpEntryLogger
  cases hname : r.extra.lookup "name" with
  | none => rfl
  | some v =>
    dsimp only
    by_cases hv : jvalTruthy v = true
    · rw [if_pos hv]
      exact lookup_dictSet_ne _ _ _ _ h
    · rw [if_neg hv]

/-- Helper: shape of the trace block for a truthy id failing the check or
a falsy project id. -/
theorem gcpEntryTrace_of_invalid (projectId : Option String)
    (r : LogRecord) (hne : gcpTraceIdOf r ≠ "")
    (hcond : (pyTruthy projectId && isGcpTraceId (gcpTraceIdOf r))
      = false) :
    gcpEntryTrace projectId r
      = dictSet (gcpBaseEntry r) "trace_id"
          (.prim (.jstr (gcpTraceIdOf r))) := by
  simp only [gcpEntryTrace]
  rw [if_pos hne, if_neg (by simp [hcond])]

/-- Helper: shape of the trace block for a falsy (empty) id. -/
theorem gcpEntryTrace_of_empty (projectId : Option String) (r : LogRecord)
    (hempty : gcpTraceIdOf r = "") :
    gcpEntryTrace projectId r = gcpBaseEntry r := by
  simp only [gcpEntryTrace]
  rw [if_neg (by simp [hempty])]

/-- Helper: shape of the trace block for a truthy project id and an id
passing the 32-hex check. -/
theorem gcpEntryTrace_of_valid (projectId : Option String) (r : LogRecord)
    (hne : gcpTraceIdOf r ≠ "")
    (hcond : (pyTruthy projectId && isGcpTraceId (gcpTraceIdOf r))
      = true) :
    gcpEntryTrace projectId r
      = dictSet
          (dictSet (gcpBaseEntry r) "trace_id"
            (.prim (.jstr (gcpTraceIdOf r))))
          "logging.googleapis.com/trace"
          (.prim (.jstr ("projects/" ++ projectId.getD "" ++ "/traces/"
            ++ gcpTraceIdOf r))) := by
  simp only [gcpEntryTrace]
  rw [if_pos hne, if_pos hcond]

/-- Helper: the base entry has no trace keys. -/
theorem lookup_base_none (r : LogRecord) :
    (gcpBaseEntry r).lookup "logging.googleapis.com/trace" = none
      ∧ (gcpBaseEntry r).lookup "trace_id" = none :=
  ⟨rfl, rfl⟩

/-- Helper: a 32-hex trace id is in particular non-empty. -/
theorem isGcpTraceId_ne_empty (t : String) (h : isGcpTraceId t = true) :
    t ≠ "" := by
  intro he
  subst he
  exact absurd h (by decide)

/-- C2 (amended): for records whose extras do not themselves carry the key
logging.googleapis.com/trace, and a truthy project id: a non-empty trace
id failing the 32-lowercase-hex check never reaches the official trace key
but does appear under trace_id; an empty trace id appears under neither
key; an id passing the check yields the official key with the value
projects/(project)/traces/(id). -/
theorem gcp_trace_fields (pid : String) (r : LogRecord) (hpid : pid ≠ "")
    (hextra : ∀ p ∈ r.extra, p.1 ≠ "logging.googleapis.com/trace") :
    (gcpTraceIdOf r ≠ "" → isGcpTraceId (gcpTraceIdOf r) = false →
      (gcpFormatter (some pid) r).lookup "logging.googleapis.com/trace"
        = none
      ∧ (gcpFormatter (some pid) r).lookup "trace_id"
        = some (.prim (.jstr (gcpTraceIdOf r))))
    ∧ (gcpTraceIdOf r = "" →
      (gcpFormatter (some pid) r).lookup "logging.googleapis.com/trace"
        = none
      ∧ (gcpFormatter (some pid) r).lookup "trace_id" = none)
    ∧ (isGcpTraceId (gcpTraceIdOf r) = true →
      (gcpFormatter (some pid) r).lookup "logging.googleapis.com/trace"
        = some (.prim (.jstr
            ("projects/" ++ pid ++ "/traces/" ++ gcpTraceIdOf r)))) := by
  have hfold : ∀ q : String,
      (∀ p ∈ r.extra, p.1 = q →
        (p.1 == "trace_id" || p.1 == "name") = true) →
      (gcpFormatter (some pid) r).lookup q
        = (gcpEntryLogger (some pid) r).lookup q := by
    intro q hq
    exact lookup_extras_foldl r.extra _ q hq
  have hfold_trace :
      (gcpFormatter (some pid) r).lookup "logging.googleapis.com/trace"
        = (gcpEntryTrace (some pid) r).lookup
            "logging.googleapis.com/trace" := by
    rw [hfold _ (fun p hp hpq => absurd hpq (hextra p hp))]
    exact lookup_entryLogger_ne _ _ _ (by decide)
  have hfold_tid :
      (gcpFormatter (some pid) r).lookup "trace_id"
        = (gcpEntryTrace (some pid) r).lookup "trace_id" := by
    rw [hfold _ (fun p hp hpq => by simp [hpq])]
    exact lookup_entryLogger_ne _ _ _ (by decide)
  refine ⟨?_, ?_, ?_⟩
  · intro hne hbad
    have hcond : (pyTruthy (some pid) && isGcpTraceId (gcpTraceIdOf r))
        = false := by
      simp [hbad]
    have hform := gcpEntryTrace_of_invalid (some pid) r hne hcond
    constructor
    · rw [hfold_trace, hform, lookup_dictSet_ne _ _ _ _
        (by decide : ("logging.googleapis.com/trace" : String)
          ≠ "trace_id")]
      exact (lookup_base_none r).1
    · rw [hfold_tid, hform]
      exact lookup_dictSet_self _ _ _
  · intro hempty
    have hform := gcpEntryTrace_of_empty (some pid) r hempty
    constructor
    · rw [hfold_trace, hform]
      exact (lookup_base_none r).1
    · rw [hfold_tid, hform]
      exact (lookup_base_none r).2
  · intro hgood
    have hne : gcpTraceIdOf r ≠ "" := isGcpTraceId_ne_empty _ hgood
    have hcond : (pyTruthy (some pid) && isGcpTraceId (gcpTraceIdOf r))
        = true := by
      simp [pyTruthy, hpid, hgood]
    have hform := gcpEntryTrace_of_valid (some pid) r hne hcond
    rw [hfold_trace, hform]
    exact lookup_dictSet_self _ _ _

/-- C2 witness: with project id my-project, the 8-character id "05556afc"
stays out of the official trace key but appears under trace_id, and a
32-hex id produces the fully qualified resource path. -/
theorem gcp_trace_fields_witness :
    ((gcpFormatter (some "my-project") record8Tid).lookup
        "logging.googleapis.com/trace" = none
      ∧ (gcpFormatter (some "my-project") record8Tid).lookup "trace_id"
        = some (.prim (.jstr "05556afc")))
    ∧ (gcpFormatter (some "my-project") record32Tid).lookup
        "logging.googleapis.com/trace"
      = some (.prim (.jstr
          "projects/my-project/traces/0123456789abcdef0123456789abcdef")) :=
  ⟨(gcp_trace_fields "my-project" record8Tid (by decide) (by decide)).1
      (by decide) (by decide),
   (gcp_trace_fields "my-project" record32Tid (by decide) (by decide)).2.2
      (by decide)⟩

/-- C2 counterexample: the claim as stated fails on the code. With a
configured project id, a record whose trace id is the empty string (not 32
lowercase hex) gets no trace_id key at all, and a record whose extras also
carry the official key gets that key copied in by the extras loop even
though its trace id fails the check. -/
theorem gcp_trace_fields_counterexample :
    gcpTraceIdOf recordEmptyTid = ""
    ∧ (gcpFormatter (some "my-project") recordEmptyTid).lookup "trace_id"
      = none
    ∧ isGcpTraceId (gcpTraceIdOf recordSmuggledTrace) = false
    ∧ (gcpFormatter (some "my-project") recordSmuggledTrace).lookup
        "logging.googleapis.com/trace"
      = some (.prim (.jstr "not-a-resource-path")) :=
  ⟨rfl, rfl, rfl, rfl⟩

end LibLogger
